import Mathlib

/-!
Verification of the Book Swap canister (`src/dfinity_js_backend/src/index.ts`).

The canister keeps four `StableBTreeMap`s (users, books, swap requests,
feedback), each keyed by a text identifier, and exposes query/update
operations over them.  We embed the state as association lists with
upsert/lookup/delete operations matching the map interface the code uses
(`get`, `insert`, `remove`, `values`).  `update` operations are embedded as
functions `... → State → Res T × State`; `query` operations cannot mutate
state on the IC, so they are embedded as functions of the state only.

Modelling notes:
* `createdAt` is stored by the code as `new Date().toISOString()` and later
  re-parsed with `new Date(...)`; since that round trip is the identity on
  instants we model `createdAt` directly as the instant (a `Nat`).
  The calendar projections `getMonth`/`getFullYear` used by the
  month-window aggregates are taken as parameters `monthOf yearOf : Nat → Nat`,
  so every theorem about them holds for the actual calendar functions.
* `uuidv4()` is modelled by a fresh-id generator `genId` driven by a counter
  in the state; generated ids all start with the marker `"id-"`, which
  models the fact that uuid texts and principal texts have disjoint formats.
* `ic.caller()` is passed explicitly to the operations that read it; its
  text form is a `String`.
* JavaScript string truthiness (`!payload.x`) is emptiness for strings and
  zero-ness for `nat64` fields, and is embedded as such.
-/

namespace BookSwap

abbrev Principal := String

/-- `User` record (source lines 27-34). -/
structure User where
  userId : String
  owner : Principal
  name : String
  email : String
  phoneNumber : String
  createdAt : Nat
deriving DecidableEq, Repr

/-- `Book` record (source lines 37-46). -/
structure Book where
  bookId : String
  userId : String
  title : String
  author : String
  genre : String
  description : String
  imageUrl : String
  createdAt : Nat
deriving DecidableEq, Repr

/-- `SwapRequest` record (source lines 49-56). -/
structure SwapRequest where
  swapRequestId : String
  ownerId : String
  requesterId : String
  bookId : String
  status : String
  createdAt : Nat
deriving DecidableEq, Repr

/-- `Feedback` record (source lines 59-66). -/
structure Feedback where
  feedbackId : String
  userId : String
  swapRequestId : String
  rating : Nat
  comment : String
  createdAt : Nat
deriving DecidableEq, Repr

/-- `Message` variant (source lines 69-74). -/
inductive Message where
  | Success (msg : String)
  | Error (msg : String)
  | NotFound (msg : String)
  | InvalidPayload (msg : String)
deriving DecidableEq, Repr

/-- `Result(T, Message)`: every operation returns `Ok(value)` or a `Message`. -/
abbrev Res (α : Type) := Except Message α

instance {ε α : Type} [DecidableEq ε] [DecidableEq α] : DecidableEq (Except ε α)
  | .ok a, .ok b =>
    if h : a = b then .isTrue (by rw [h]) else .isFalse (by simp [h])
  | .error a, .error b =>
    if h : a = b then .isTrue (by rw [h]) else .isFalse (by simp [h])
  | .ok _, .error _ => .isFalse (by simp)
  | .error _, .ok _ => .isFalse (by simp)

/-- `UserPayload` (source lines 77-81). -/
structure UserPayload where
  name : String
  email : String
  phoneNumber : String
deriving DecidableEq, Repr

/-- `BookPayload` (source lines 83-90). -/
structure BookPayload where
  userId : String
  title : String
  author : String
  genre : String
  description : String
  imageUrl : String
deriving DecidableEq, Repr

/-- `SwapRequestPayload` (source lines 92-96). -/
structure SwapRequestPayload where
  ownerId : String
  requesterId : String
  bookId : String
deriving DecidableEq, Repr

/-- `FeedbackPayload` (source lines 98-103). -/
structure FeedbackPayload where
  userId : String
  swapRequestId : String
  rating : Nat
  comment : String
deriving DecidableEq, Repr

/-! ### The `StableBTreeMap` interface, as an association list

The code only uses `get`, `insert` (upsert), `remove` and `values`.  We keep
one binding per key: `mput` overwrites in place when the key is present and
appends otherwise (a `Map`-like upsert; the B-tree's key ordering is never
relied on by the operations the claims are about, except through explicit
`sort` calls which the code performs itself). -/

/-- `storage.get(k)`. -/
def mget {α : Type} : List (String × α) → String → Option α
  | [], _ => none
  | (k, v) :: rest, k0 => if k = k0 then some v else mget rest k0

/-- `storage.insert(k, v)` (upsert): overwrite the binding in place when the
key is present, append it otherwise. -/
def mput {α : Type} : List (String × α) → String → α → List (String × α)
  | [], k, v => [(k, v)]
  | (k1, v1) :: rest, k, v =>
    if k1 = k then (k, v) :: rest else (k1, v1) :: mput rest k v

/-- `storage.remove(k)`. -/
def mdel {α : Type} (m : List (String × α)) (k : String) : List (String × α) :=
  m.filter (fun e => decide (e.1 ≠ k))

/-- `storage.values()`. -/
def mvalues {α : Type} (m : List (String × α)) : List α :=
  m.map Prod.snd

/-- The keys of a map. -/
def mkeys {α : Type} (m : List (String × α)) : List String :=
  m.map Prod.fst

/-! ### Fresh identifiers (`uuidv4()`) -/

/-- Fresh-id generator standing for `uuidv4()`: the `n`-th generated id.
All generated ids carry the marker head `"id-"`. -/
def genId (n : Nat) : String :=
  String.mk ('i' :: 'd' :: '-' :: (Nat.repr n).data)

/-- Recognizer for the generated-id namespace. -/
def isGenId (s : String) : Bool :=
  s.data.take 3 == ['i', 'd', '-']

/-! ### Validation helpers (source lines 113-122) -/

/-- `isValidEmail`: the regex `/^[^\s@]+@[^\s@]+\.[^\s@]+$/`.  The string
must decompose as `a ++ "@" ++ r` where `a` is nonempty without whitespace
or `@`, and `r` is nonempty without whitespace or `@` and has a dot that is
neither its first nor its last character. -/
def isValidEmail (s : String) : Bool :=
  let a := s.data.takeWhile (fun c => c != '@')
  let r := s.data.dropWhile (fun c => c != '@')
  match r with
  | [] => false
  | _ :: rest =>
    !a.isEmpty && a.all (fun c => !c.isWhitespace) &&
    rest.all (fun c => (c != '@') && !c.isWhitespace) &&
    (rest.drop 1).dropLast.contains '.'

/-- `isValidPhoneNumber`: the regex `/^\d{10}$/`. -/
def isValidPhoneNumber (s : String) : Bool :=
  s.data.length == 10 && s.data.all Char.isDigit

/-! ### Canister state -/

/-- The four storage maps plus the fresh-id counter. -/
structure State where
  users : List (String × User)
  books : List (String × Book)
  swaps : List (String × SwapRequest)
  feedbacks : List (String × Feedback)
  nextId : Nat
deriving DecidableEq, Repr

/-- The state of a freshly deployed canister: all maps empty. -/
def initState : State := ⟨[], [], [], [], 0⟩

/-! ### User operations -/

/-- `createUserProfile` (source lines 127-160). -/
def createUserProfile (caller : Principal) (now : Nat) (p : UserPayload)
    (s : State) : Res User × State :=
  if p.name == "" || p.email == "" || p.phoneNumber == "" then
    (.error (.InvalidPayload "All fields (name, email, phone number) are required."), s)
  else if !isValidEmail p.email then
    (.error (.InvalidPayload "Invalid email format."), s)
  else if !isValidPhoneNumber p.phoneNumber then
    (.error (.InvalidPayload "Phone number must be a 10-digit number."), s)
  else if (mvalues s.users).any (fun u => u.email == p.email) then
    (.error (.InvalidPayload "Email already exists."), s)
  else
    let userId := genId s.nextId
    let newUser : User :=
      { userId := userId, owner := caller, name := p.name, email := p.email
        phoneNumber := p.phoneNumber, createdAt := now }
    (.ok newUser, { s with users := mput s.users userId newUser, nextId := s.nextId + 1 })

/-- `updateUserProfile` (source lines 163-219).  The email-uniqueness scan
runs before the phone check and before the existence check, exactly as in
the source. -/
def updateUserProfile (userId : String) (p : UserPayload) (s : State) :
    Res User × State :=
  if p.name == "" || p.email == "" || p.phoneNumber == "" then
    (.error (.InvalidPayload "Ensure 'name', 'email', and 'phoneNumber' are provided."), s)
  else if !isValidEmail p.email then
    (.error (.InvalidPayload "Invalid email format: Ensure the email is in the correct format."), s)
  else if (mvalues s.users).any (fun u => u.email == p.email && u.userId != userId) then
    (.error (.InvalidPayload "Email already exists: Ensure the email is unique."), s)
  else if !isValidPhoneNumber p.phoneNumber then
    (.error (.InvalidPayload "Invalid phone number: Ensure the phone number is in the correct format."), s)
  else
    match mget s.users userId with
    | none => (.error (.NotFound "User not found"), s)
    | some user =>
      let updatedUser : User :=
        { user with name := p.name, email := p.email, phoneNumber := p.phoneNumber }
      (.ok updatedUser, { s with users := mput s.users userId updatedUser })

/-! ### Book operations -/

/-- `listBook` (source lines 251-281).  The required-field check covers
`title`, `author`, `description` and `imageUrl` only; `genre` and `userId`
are not checked for emptiness. -/
def listBook (now : Nat) (p : BookPayload) (s : State) : Res Book × State :=
  if p.title == "" || p.author == "" || p.description == "" || p.imageUrl == "" then
    (.error (.InvalidPayload "Ensure 'title', 'author', 'description', and 'imageUrl' are provided."), s)
  else
    match mget s.users p.userId with
    | none => (.error (.NotFound "User not found"), s)
    | some _ =>
      let bookId := genId s.nextId
      let book : Book :=
        { bookId := bookId, userId := p.userId, title := p.title, author := p.author
          genre := p.genre, description := p.description, imageUrl := p.imageUrl
          createdAt := now }
      (.ok book, { s with books := mput s.books bookId book, nextId := s.nextId + 1 })

/-- `updateBook` (source lines 284-311). -/
def updateBook (bookId : String) (p : BookPayload) (s : State) : Res Book × State :=
  if bookId == "" then
    (.error (.InvalidPayload "Ensure 'bookId' is provided."), s)
  else
    match mget s.books bookId with
    | none => (.error (.NotFound "Book not found"), s)
    | some book =>
      let updatedBook : Book :=
        { book with userId := p.userId, title := p.title, author := p.author
                    genre := p.genre, description := p.description, imageUrl := p.imageUrl }
      (.ok updatedBook, { s with books := mput s.books bookId updatedBook })

/-- `getBook` (source lines 314-321), a query. -/
def getBook (bookId : String) (s : State) : Res Book :=
  match mget s.books bookId with
  | none => .error (.NotFound "Book not found")
  | some book => .ok book

/-- `deleteBook` (source lines 860-868). -/
def deleteBook (bookId : String) (s : State) : Res Unit × State :=
  match mget s.books bookId with
  | none => (.error (.NotFound "Book not found."), s)
  | some _ => (.ok (), { s with books := mdel s.books bookId })

/-- Executable list-prefix test. -/
def isPrefixB : List Char → List Char → Bool
  | [], _ => true
  | _ :: _, [] => false
  | a :: as, b :: bs => a == b && isPrefixB as bs

/-- Executable contiguous-substring test, scanning every suffix. -/
def isInfixB : List Char → List Char → Bool
  | n, [] => n.isEmpty
  | n, h :: t => isPrefixB n (h :: t) || isInfixB n t

/-- Case-insensitive containment:
`hay.toLowerCase().includes(needle.toLowerCase())`, on the character lists
(`s.toLower.data = s.data.map Char.toLower`). -/
def containsCI (hay needle : String) : Bool :=
  isInfixB (needle.data.map Char.toLower) (hay.data.map Char.toLower)

/-- The match predicate of `searchBooks` (source lines 363-369). -/
def matchesSearch (searchTerm : String) (book : Book) : Bool :=
  containsCI book.title searchTerm || containsCI book.author searchTerm ||
    containsCI book.genre searchTerm

/-- `searchBooks` (source lines 361-378), a query. -/
def searchBooks (searchTerm : String) (s : State) : Res (List Book) :=
  let books := (mvalues s.books).filter (matchesSearch searchTerm)
  if books.isEmpty then
    .error (.NotFound "No books found matching the search term.")
  else
    .ok books

/-- The order produced by the comparator
`(a, b) => new Date(b.createdAt).getTime() - new Date(a.createdAt).getTime()`:
`createdAt` descending. -/
def newerBook (a b : Book) : Prop := b.createdAt ≤ a.createdAt

instance : DecidableRel newerBook := fun a b => Nat.decLe b.createdAt a.createdAt

/-- `getRecentBooks` (source lines 615-625), a query. -/
def getRecentBooks (s : State) : Res (List Book) :=
  let recentBooks := (List.insertionSort newerBook (mvalues s.books)).take 10
  if recentBooks.isEmpty then
    .error (.NotFound "No recent books found.")
  else
    .ok recentBooks

/-! ### SwapRequest operations -/

/-- Whether a stored request matches the payload triple, the comparison done
by both duplicate scans of `createSwapRequest`. -/
def sameTriple (p : SwapRequestPayload) (r : SwapRequest) : Bool :=
  r.ownerId == p.ownerId && r.requesterId == p.requesterId && r.bookId == p.bookId

/-- `createSwapRequest` (source lines 392-467).  After the field and
existence checks it scans all stored requests for the same triple (any
status), then redundantly scans the `Completed` ones again. -/
def createSwapRequest (now : Nat) (p : SwapRequestPayload) (s : State) :
    Res SwapRequest × State :=
  if p.ownerId == "" || p.requesterId == "" || p.bookId == "" then
    (.error (.InvalidPayload "Ensure 'ownerId', 'requesterId', and 'bookId' are provided."), s)
  else
    match mget s.users p.ownerId with
    | none => (.error (.NotFound "User not found"), s)
    | some _ =>
      match mget s.users p.requesterId with
      | none => (.error (.NotFound "Requester not found"), s)
      | some _ =>
        match mget s.books p.bookId with
        | none => (.error (.NotFound "Book not found"), s)
        | some _ =>
          if (mvalues s.swaps).any (sameTriple p) then
            (.error (.InvalidPayload "Swap request already exists: Ensure the swap request is unique."), s)
          else if ((mvalues s.swaps).filter (fun r => r.status == "Completed")).any (sameTriple p) then
            (.error (.InvalidPayload "Swap request already exists: Ensure the swap request is unique."), s)
          else
            let swapRequestId := genId s.nextId
            let swapRequest : SwapRequest :=
              { swapRequestId := swapRequestId, ownerId := p.ownerId
                requesterId := p.requesterId, bookId := p.bookId
                status := "Pending", createdAt := now }
            (.ok swapRequest,
             { s with swaps := mput s.swaps swapRequestId swapRequest, nextId := s.nextId + 1 })

/-- `updateSwapRequest` (source lines 470-483): overwrites `ownerId`,
`requesterId` and `bookId` from the payload with no duplicate check. -/
def updateSwapRequest (swapRequestId : String) (p : SwapRequestPayload)
    (s : State) : Res SwapRequest × State :=
  match mget s.swaps swapRequestId with
  | none => (.error (.NotFound "Swap request not found."), s)
  | some r =>
    let updated : SwapRequest :=
      { r with ownerId := p.ownerId, requesterId := p.requesterId, bookId := p.bookId }
    (.ok updated, { s with swaps := mput s.swaps swapRequestId updated })

/-- `acceptSwapRequest` (source lines 694-708). -/
def acceptSwapRequest (swapRequestId : String) (s : State) :
    Res SwapRequest × State :=
  match mget s.swaps swapRequestId with
  | none => (.error (.NotFound "Swap request not found."), s)
  | some r =>
    let updated : SwapRequest := { r with status := "Completed" }
    (.ok updated, { s with swaps := mput s.swaps swapRequestId updated })

/-- `rejectSwapRequest` (source lines 712-732). -/
def rejectSwapRequest (swapRequestId : String) (s : State) :
    Res SwapRequest × State :=
  match mget s.swaps swapRequestId with
  | none => (.error (.NotFound "Swap request not found"), s)
  | some r =>
    let updated : SwapRequest := { r with status := "Rejected" }
    (.ok updated, { s with swaps := mput s.swaps swapRequestId updated })

/-- `deleteSwapRequest` (source lines 871-879). -/
def deleteSwapRequest (swapRequestId : String) (s : State) : Res Unit × State :=
  match mget s.swaps swapRequestId with
  | none => (.error (.NotFound "Swap request not found"), s)
  | some _ => (.ok (), { s with swaps := mdel s.swaps swapRequestId })

/-! ### Feedback operations -/

/-- `createFeedback` (source lines 744-768).  `!payload.rating` rejects a
zero rating. -/
def createFeedback (now : Nat) (p : FeedbackPayload) (s : State) :
    Res Feedback × State :=
  if p.rating == 0 || p.comment == "" then
    (.error (.InvalidPayload "Ensure 'rating' and 'comment' are provided."), s)
  else
    match mget s.users p.userId with
    | none => (.error (.NotFound "User not found."), s)
    | some _ =>
      match mget s.swaps p.swapRequestId with
      | none => (.error (.NotFound "Swap request not found."), s)
      | some _ =>
        let feedbackId := genId s.nextId
        let feedback : Feedback :=
          { feedbackId := feedbackId, userId := p.userId
            swapRequestId := p.swapRequestId, rating := p.rating
            comment := p.comment, createdAt := now }
        (.ok feedback,
         { s with feedbacks := mput s.feedbacks feedbackId feedback, nextId := s.nextId + 1 })

/-- `updateFeedback` (source lines 771-798): the lookup key is
`ic.caller().toText()`, not a feedback identifier. -/
def updateFeedback (caller : Principal) (p : FeedbackPayload) (s : State) :
    Res Feedback × State :=
  if p.rating == 0 || p.comment == "" then
    (.error (.InvalidPayload "Ensure 'rating' and 'comment' are provided."), s)
  else
    let feedbackId := caller
    match mget s.feedbacks feedbackId with
    | none => (.error (.NotFound "Feedback not found"), s)
    | some feedback =>
      let updated : Feedback :=
        { feedback with userId := p.userId, swapRequestId := p.swapRequestId
                        rating := p.rating, comment := p.comment }
      (.ok updated, { s with feedbacks := mput s.feedbacks feedbackId updated })

/-- `deleteFeedback` (source lines 849-857). -/
def deleteFeedback (feedbackId : String) (s : State) : Res Unit × State :=
  match mget s.feedbacks feedbackId with
  | none => (.error (.NotFound "Feedback not found"), s)
  | some _ => (.ok (), { s with feedbacks := mdel s.feedbacks feedbackId })

/-! ### `getFeaturedSwappers` (source lines 882-965) -/

/-- One element of the returned vector. -/
structure FeaturedSwapper where
  username : String
  booksSwapped : Nat
  userId : String
  bookDetails : Option Book
deriving DecidableEq, Repr

/-- Descending order on the count component, the order produced by the
comparator `(a, b) => b[1] - a[1]`. -/
def moreSwaps (a b : String × Nat) : Prop := b.2 ≤ a.2

instance : DecidableRel moreSwaps := fun a b => Nat.decLe b.2 a.2

/-- The swap requests with status `Completed` whose `createdAt` falls in the
current calendar month and year (source lines 900-909). -/
def featuredWindow (monthOf yearOf : Nat → Nat) (now : Nat) (s : State) :
    List SwapRequest :=
  (mvalues s.swaps).filter
    (fun r => r.status == "Completed" && monthOf r.createdAt == monthOf now &&
      yearOf r.createdAt == yearOf now)

/-- One `forEach` step of the counter loop (source lines 913-924): the
requester count and the owner count are both read first, then the requester
entry is set, then the owner entry. -/
def countStep (m : List (String × Nat)) (r : SwapRequest) : List (String × Nat) :=
  let requesterCount := (mget m r.requesterId).getD 0
  let ownerCount := (mget m r.ownerId).getD 0
  mput (mput m r.requesterId (requesterCount + 1)) r.ownerId (ownerCount + 1)

/-- The per-user completed-swap counter map (source lines 912-924). -/
def swapCountPerUser (window : List SwapRequest) : List (String × Nat) :=
  window.foldl countStep []

/-- The body of the `.map` over the sorted count entries (source lines
929-954): look the user up, attach the user's most recent book; a missing
user yields `undefined`, which the trailing `.filter` drops — hence
`Option`/`filterMap`. -/
def buildEntry (s : State) (e : String × Nat) : Option FeaturedSwapper :=
  match mget s.users e.1 with
  | none => none
  | some user =>
    let userBooks :=
      List.insertionSort newerBook
        ((mvalues s.books).filter (fun b => b.userId == e.1))
    some { username := user.name, booksSwapped := e.2, userId := user.userId
           bookDetails := userBooks.head? }

/-- The list `getFeaturedSwappers` builds: count entries sorted by count
descending, mapped to user records (dropping missing users), top 5. -/
def featuredList (monthOf yearOf : Nat → Nat) (now : Nat) (s : State) :
    List FeaturedSwapper :=
  ((List.insertionSort moreSwaps
      (swapCountPerUser (featuredWindow monthOf yearOf now s))).filterMap
    (buildEntry s)).take 5

/-- `getFeaturedSwappers`, a query; `monthOf`/`yearOf` stand for the
calendar projections `getMonth`/`getFullYear` and `now` for the call time. -/
def getFeaturedSwappers (monthOf yearOf : Nat → Nat) (now : Nat) (s : State) :
    Res (List FeaturedSwapper) :=
  let featuredSwappers := featuredList monthOf yearOf now s
  if featuredSwappers.isEmpty then
    .error (.NotFound "No featured swappers found for this month.")
  else
    .ok featuredSwappers

/-! ### The façade as a transition system

The mutating (`update`) operations of the canister; `query` operations
cannot change state on the IC.  `exec` runs one invocation and keeps the
resulting state. -/

inductive Op where
  | opCreateUserProfile (caller : Principal) (now : Nat) (p : UserPayload)
  | opUpdateUserProfile (userId : String) (p : UserPayload)
  | opListBook (now : Nat) (p : BookPayload)
  | opUpdateBook (bookId : String) (p : BookPayload)
  | opDeleteBook (bookId : String)
  | opCreateSwapRequest (now : Nat) (p : SwapRequestPayload)
  | opUpdateSwapRequest (swapRequestId : String) (p : SwapRequestPayload)
  | opAcceptSwapRequest (swapRequestId : String)
  | opRejectSwapRequest (swapRequestId : String)
  | opDeleteSwapRequest (swapRequestId : String)
  | opCreateFeedback (now : Nat) (p : FeedbackPayload)
  | opUpdateFeedback (caller : Principal) (p : FeedbackPayload)
  | opDeleteFeedback (feedbackId : String)
deriving DecidableEq, Repr

/-- Run one façade call, keeping the new state. -/
def exec (o : Op) (s : State) : State :=
  match o with
  | .opCreateUserProfile caller now p => (createUserProfile caller now p s).2
  | .opUpdateUserProfile userId p => (updateUserProfile userId p s).2
  | .opListBook now p => (listBook now p s).2
  | .opUpdateBook bookId p => (updateBook bookId p s).2
  | .opDeleteBook bookId => (deleteBook bookId s).2
  | .opCreateSwapRequest now p => (createSwapRequest now p s).2
  | .opUpdateSwapRequest id p => (updateSwapRequest id p s).2
  | .opAcceptSwapRequest id => (acceptSwapRequest id s).2
  | .opRejectSwapRequest id => (rejectSwapRequest id s).2
  | .opDeleteSwapRequest id => (deleteSwapRequest id s).2
  | .opCreateFeedback now p => (createFeedback now p s).2
  | .opUpdateFeedback caller p => (updateFeedback caller p s).2
  | .opDeleteFeedback id => (deleteFeedback id s).2

/-- Run a sequence of façade calls from the empty (freshly deployed) state. -/
def execSeq (ops : List Op) : State :=
  ops.foldl (fun s o => exec o s) initState

/-! ### Lemmas about the map operations -/

theorem mget_mput_self {α : Type} (m : List (String × α)) (k : String) (v : α) :
    mget (mput m k v) k = some v := by
  induction m with
  | nil => simp [mput, mget]
  | cons a rest ih =>
    obtain ⟨k1, v1⟩ := a
    by_cases h : k1 = k
    · simp [mput, h, mget]
    · simp [mput, h, mget, ih]

theorem mget_mput_ne {α : Type} (m : List (String × α)) {k k2 : String} (v : α)
    (hne : k2 ≠ k) : mget (mput m k v) k2 = mget m k2 := by
  induction m with
  | nil => simp [mput, mget, Ne.symm hne]
  | cons a rest ih =>
    obtain ⟨k1, v1⟩ := a
    by_cases h : k1 = k
    · subst h
      simp [mput, mget, ih, Ne.symm hne]
    · simp [mput, h, mget, ih]

theorem mem_mput {α : Type} {m : List (String × α)} {k : String} {v : α}
    {e : String × α} (he : e ∈ mput m k v) : e ∈ m ∨ e = (k, v) := by
  induction m with
  | nil => simp [mput] at he; exact Or.inr he
  | cons a rest ih =>
    obtain ⟨k1, v1⟩ := a
    by_cases h : k1 = k
    · rw [mput, if_pos h] at he
      rcases List.mem_cons.mp he with h2 | h2
      · exact Or.inr h2
      · exact Or.inl (List.mem_cons_of_mem _ h2)
    · rw [mput, if_neg h] at he
      rcases List.mem_cons.mp he with h2 | h2
      · exact Or.inl (h2 ▸ List.mem_cons_self _ _)
      · rcases ih h2 with h3 | h3
        · exact Or.inl (List.mem_cons_of_mem _ h3)
        · exact Or.inr h3

theorem mput_of_none {α : Type} {m : List (String × α)} {k : String}
    (v : α) (h : mget m k = none) : mput m k v = m ++ [(k, v)] := by
  induction m with
  | nil => rfl
  | cons a rest ih =>
    obtain ⟨k1, v1⟩ := a
    by_cases hk : k1 = k
    · rw [mget, if_pos hk] at h
      exact absurd h (by simp)
    · rw [mget, if_neg hk] at h
      rw [mput, if_neg hk, ih h, List.cons_append]

theorem mget_some_mem {α : Type} {m : List (String × α)} {k : String} {v : α}
    (h : mget m k = some v) : (k, v) ∈ m := by
  induction m with
  | nil => simp [mget] at h
  | cons a rest ih =>
    obtain ⟨k1, v1⟩ := a
    by_cases hk : k1 = k
    · rw [mget, if_pos hk] at h
      have hv : v1 = v := Option.some_injective _ h
      rw [← hk, ← hv]
      exact List.mem_cons_self _ _
    · rw [mget, if_neg hk] at h
      exact List.mem_cons_of_mem _ (ih h)

theorem mget_none_iff {α : Type} (m : List (String × α)) (k : String) :
    mget m k = none ↔ k ∉ mkeys m := by
  induction m with
  | nil => simp [mget, mkeys]
  | cons a rest ih =>
    obtain ⟨k1, v1⟩ := a
    by_cases hk : k1 = k
    · simp [mget, hk, mkeys]
    · simp [mget, hk, mkeys, ih, Ne.symm hk]

theorem mem_mkeys_mput {α : Type} {m : List (String × α)} {k k3 : String}
    {v : α} (h : k3 ∈ mkeys (mput m k v)) : k3 ∈ mkeys m ∨ k3 = k := by
  rcases List.mem_map.mp h with ⟨e, he, hk⟩
  rcases mem_mput he with h2 | h2
  · exact Or.inl (hk ▸ List.mem_map_of_mem Prod.fst h2)
  · exact Or.inr (by rw [← hk, h2])

theorem mkeys_nodup_mput {α : Type} {m : List (String × α)} (k : String) (v : α)
    (h : (mkeys m).Nodup) : (mkeys (mput m k v)).Nodup := by
  induction m with
  | nil => simp [mput, mkeys]
  | cons a rest ih =>
    obtain ⟨k1, v1⟩ := a
    simp only [mkeys, List.map_cons, List.nodup_cons] at h
    by_cases hk : k1 = k
    · rw [mput, if_pos hk]
      simp only [mkeys, List.map_cons, List.nodup_cons]
      exact ⟨hk ▸ h.1, h.2⟩
    · rw [mput, if_neg hk]
      simp only [mkeys, List.map_cons, List.nodup_cons]
      refine ⟨?_, ih h.2⟩
      intro hc
      rcases mem_mkeys_mput hc with h2 | h2
      · exact h.1 h2
      · exact hk h2

theorem mvalues_mput_of_none {α : Type} {m : List (String × α)} {k : String}
    (v : α) (h : mget m k = none) : mvalues (mput m k v) = mvalues m ++ [v] := by
  rw [mput_of_none v h]
  simp [mvalues]

theorem mput_split {α : Type} {m : List (String × α)} {k : String} {v : α}
    (hn : (mkeys m).Nodup) (hget : mget m k = some v) (w : α) :
    ∃ l1 l2, m = l1 ++ (k, v) :: l2 ∧ (∀ e ∈ l1, e.1 ≠ k) ∧ (∀ e ∈ l2, e.1 ≠ k) ∧
      mput m k w = l1 ++ (k, w) :: l2 := by
  induction m with
  | nil => simp [mget] at hget
  | cons a rest ih =>
    obtain ⟨k1, v1⟩ := a
    simp only [mkeys, List.map_cons, List.nodup_cons] at hn
    by_cases hk : k1 = k
    · rw [mget, if_pos hk] at hget
      have hav : v1 = v := Option.some_injective _ hget
      have hrest : ∀ e ∈ rest, e.1 ≠ k := by
        intro e he hc
        exact hn.1 (hk ▸ hc ▸ List.mem_map_of_mem Prod.fst he)
      exact ⟨[], rest, by simp [hk, hav], by simp, hrest, by rw [mput, if_pos hk]; rfl⟩
    · rw [mget, if_neg hk] at hget
      rcases ih hn.2 hget with ⟨l1, l2, hm, h1, h2, hput⟩
      refine ⟨(k1, v1) :: l1, l2, by rw [List.cons_append, hm], ?_, h2, ?_⟩
      · intro e he
        rcases List.mem_cons.mp he with h | h
        · exact h ▸ hk
        · exact h1 e h
      · rw [mput, if_neg hk, hput, List.cons_append]

theorem mdel_sublist {α : Type} (m : List (String × α)) (k : String) :
    (mdel m k).Sublist m := List.filter_sublist m

theorem mvalues_append {α : Type} (l1 l2 : List (String × α)) :
    mvalues (l1 ++ l2) = mvalues l1 ++ mvalues l2 := List.map_append _ _ _

/-- Replacing the distinguished element of a pairwise list keeps it pairwise,
given the relation holds between the replacement and both sides. -/
theorem pairwise_append_replace {α : Type} {R : α → α → Prop} {l1 l2 : List α}
    {a b : α} (h : List.Pairwise R (l1 ++ a :: l2))
    (h1 : ∀ x ∈ l1, R x b) (h2 : ∀ x ∈ l2, R b x) :
    List.Pairwise R (l1 ++ b :: l2) := by
  rw [List.pairwise_append] at h ⊢
  rcases h with ⟨hl1, hcons, hcross⟩
  rw [List.pairwise_cons] at hcons ⊢
  refine ⟨hl1, ⟨h2, hcons.2⟩, ?_⟩
  intro x hx y hy
  rcases List.mem_cons.mp hy with rfl | hy2
  · exact h1 x hx
  · exact hcross x hx y (List.mem_cons_of_mem _ hy2)

/-- Upserting a value related (both ways) to every stored value keeps
`mvalues` pairwise. -/
theorem pairwise_mvalues_mput {α : Type} {R : α → α → Prop}
    {m : List (String × α)} {k : String} {v : α}
    (hn : (mkeys m).Nodup) (h : (mvalues m).Pairwise R)
    (h1 : ∀ u ∈ mvalues m, R u v) (h2 : ∀ u ∈ mvalues m, R v u) :
    (mvalues (mput m k v)).Pairwise R := by
  cases hg : mget m k with
  | none =>
    rw [mvalues_mput_of_none v hg]
    rw [List.pairwise_append]
    exact ⟨h, List.pairwise_singleton R v, fun a ha b hb =>
      (List.mem_singleton.mp hb) ▸ h1 a ha⟩
  | some w =>
    rcases mput_split hn hg v with ⟨l1, l2, hm, _, _, hput⟩
    rw [hput, mvalues_append]
    have hmv : mvalues m = mvalues l1 ++ w :: mvalues l2 := by
      rw [hm, mvalues_append]; rfl
    rw [show mvalues ((k, v) :: l2) = v :: mvalues l2 from rfl]
    refine pairwise_append_replace (hmv ▸ h) ?_ ?_
    · intro x hx
      exact h1 x (by rw [hmv]; exact List.mem_append_left _ hx)
    · intro x hx
      exact h2 x (by rw [hmv]; exact List.mem_append_right _ (List.mem_cons_of_mem _ hx))

/-- Replacing the value at `k` by one related to the old value in the same
way keeps `mvalues` pairwise. -/
theorem pairwise_mvalues_mput_congr {α : Type} {R : α → α → Prop}
    {m : List (String × α)} {k : String} {w v : α}
    (hn : (mkeys m).Nodup) (hget : mget m k = some w)
    (h : (mvalues m).Pairwise R)
    (h1 : ∀ x, R x w → R x v) (h2 : ∀ x, R w x → R v x) :
    (mvalues (mput m k v)).Pairwise R := by
  rcases mput_split hn hget v with ⟨l1, l2, hm, _, _, hput⟩
  rw [hput, mvalues_append]
  have hmv : mvalues m = mvalues l1 ++ w :: mvalues l2 := by
    rw [hm, mvalues_append]; rfl
  rw [show mvalues ((k, v) :: l2) = v :: mvalues l2 from rfl]
  have hp : List.Pairwise R (mvalues l1 ++ w :: mvalues l2) := hmv ▸ h
  rw [List.pairwise_append] at hp
  rcases hp with ⟨hl1, hcons, hcross⟩
  rw [List.pairwise_cons] at hcons
  refine pairwise_append_replace (hmv ▸ h) ?_ ?_
  · intro x hx
    exact h1 x (hcross x hx w (List.mem_cons_self _ _))
  · intro x hx
    exact h2 x (hcons.1 x hx)

theorem mget_of_mem_nodup {α : Type} {m : List (String × α)} {k : String}
    {v : α} (hn : (mkeys m).Nodup) (hmem : (k, v) ∈ m) : mget m k = some v := by
  induction m with
  | nil => simp at hmem
  | cons a rest ih =>
    simp only [mkeys, List.map_cons, List.nodup_cons] at hn
    rcases List.mem_cons.mp hmem with h | h
    · rw [mget, ← h, if_pos rfl]
    · have hk : a.1 ≠ k := by
        intro hc
        exact hn.1 (hc ▸ List.mem_map_of_mem Prod.fst h)
      rw [mget, if_neg hk]
      exact ih hn.2 h

/-! ### Frame lemmas: which stores each operation leaves untouched -/

theorem createUserProfile_frame (caller : Principal) (now : Nat) (p : UserPayload)
    (s : State) :
    ((createUserProfile caller now p s).2).books = s.books ∧
    ((createUserProfile caller now p s).2).swaps = s.swaps ∧
    ((createUserProfile caller now p s).2).feedbacks = s.feedbacks := by
  unfold createUserProfile
  repeat' split
  all_goals exact ⟨rfl, rfl, rfl⟩

theorem updateUserProfile_frame (userId : String) (p : UserPayload) (s : State) :
    ((updateUserProfile userId p s).2).books = s.books ∧
    ((updateUserProfile userId p s).2).swaps = s.swaps ∧
    ((updateUserProfile userId p s).2).feedbacks = s.feedbacks := by
  unfold updateUserProfile
  repeat' split
  all_goals exact ⟨rfl, rfl, rfl⟩

theorem listBook_frame (now : Nat) (p : BookPayload) (s : State) :
    ((listBook now p s).2).users = s.users ∧
    ((listBook now p s).2).swaps = s.swaps ∧
    ((listBook now p s).2).feedbacks = s.feedbacks := by
  unfold listBook
  repeat' split
  all_goals exact ⟨rfl, rfl, rfl⟩

theorem updateBook_frame (bookId : String) (p : BookPayload) (s : State) :
    ((updateBook bookId p s).2).users = s.users ∧
    ((updateBook bookId p s).2).swaps = s.swaps ∧
    ((updateBook bookId p s).2).feedbacks = s.feedbacks := by
  unfold updateBook
  repeat' split
  all_goals exact ⟨rfl, rfl, rfl⟩

theorem deleteBook_frame (bookId : String) (s : State) :
    ((deleteBook bookId s).2).users = s.users ∧
    ((deleteBook bookId s).2).swaps = s.swaps ∧
    ((deleteBook bookId s).2).feedbacks = s.feedbacks := by
  unfold deleteBook
  repeat' split
  all_goals exact ⟨rfl, rfl, rfl⟩

theorem createSwapRequest_frame (now : Nat) (p : SwapRequestPayload) (s : State) :
    ((createSwapRequest now p s).2).users = s.users ∧
    ((createSwapRequest now p s).2).books = s.books ∧
    ((createSwapRequest now p s).2).feedbacks = s.feedbacks := by
  unfold createSwapRequest
  repeat' split
  all_goals exact ⟨rfl, rfl, rfl⟩

theorem updateSwapRequest_frame (swapRequestId : String) (p : SwapRequestPayload)
    (s : State) :
    ((updateSwapRequest swapRequestId p s).2).users = s.users ∧
    ((updateSwapRequest swapRequestId p s).2).books = s.books ∧
    ((updateSwapRequest swapRequestId p s).2).feedbacks = s.feedbacks := by
  unfold updateSwapRequest
  repeat' split
  all_goals exact ⟨rfl, rfl, rfl⟩

theorem acceptSwapRequest_frame (swapRequestId : String) (s : State) :
    ((acceptSwapRequest swapRequestId s).2).users = s.users ∧
    ((acceptSwapRequest swapRequestId s).2).books = s.books ∧
    ((acceptSwapRequest swapRequestId s).2).feedbacks = s.feedbacks := by
  unfold acceptSwapRequest
  repeat' split
  all_goals exact ⟨rfl, rfl, rfl⟩

theorem rejectSwapRequest_frame (swapRequestId : String) (s : State) :
    ((rejectSwapRequest swapRequestId s).2).users = s.users ∧
    ((rejectSwapRequest swapRequestId s).2).books = s.books ∧
    ((rejectSwapRequest swapRequestId s).2).feedbacks = s.feedbacks := by
  unfold rejectSwapRequest
  repeat' split
  all_goals exact ⟨rfl, rfl, rfl⟩

theorem deleteSwapRequest_frame (swapRequestId : String) (s : State) :
    ((deleteSwapRequest swapRequestId s).2).users = s.users ∧
    ((deleteSwapRequest swapRequestId s).2).books = s.books ∧
    ((deleteSwapRequest swapRequestId s).2).feedbacks = s.feedbacks := by
  unfold deleteSwapRequest
  repeat' split
  all_goals exact ⟨rfl, rfl, rfl⟩

theorem createFeedback_frame (now : Nat) (p : FeedbackPayload) (s : State) :
    ((createFeedback now p s).2).users = s.users ∧
    ((createFeedback now p s).2).books = s.books ∧
    ((createFeedback now p s).2).swaps = s.swaps := by
  unfold createFeedback
  repeat' split
  all_goals exact ⟨rfl, rfl, rfl⟩

theorem updateFeedback_frame (caller : Principal) (p : FeedbackPayload) (s : State) :
    ((updateFeedback caller p s).2).users = s.users ∧
    ((updateFeedback caller p s).2).books = s.books ∧
    ((updateFeedback caller p s).2).swaps = s.swaps := by
  unfold updateFeedback
  dsimp only
  repeat' split
  all_goals exact ⟨rfl, rfl, rfl⟩

theorem deleteFeedback_frame (feedbackId : String) (s : State) :
    ((deleteFeedback feedbackId s).2).users = s.users ∧
    ((deleteFeedback feedbackId s).2).books = s.books ∧
    ((deleteFeedback feedbackId s).2).swaps = s.swaps := by
  unfold deleteFeedback
  repeat' split
  all_goals exact ⟨rfl, rfl, rfl⟩

/-! ### Shape lemmas: how each operation can change its own store -/

theorem createUserProfile_users (caller : Principal) (now : Nat) (p : UserPayload)
    (s : State) :
    ((createUserProfile caller now p s).2).users = s.users ∨
    ((∀ u ∈ mvalues s.users, u.email ≠ p.email) ∧
     ((createUserProfile caller now p s).2).users =
       mput s.users (genId s.nextId)
         ⟨genId s.nextId, caller, p.name, p.email, p.phoneNumber, now⟩) := by
  unfold createUserProfile
  repeat' split
  case isTrue => exact Or.inl rfl
  case isTrue => exact Or.inl rfl
  case isTrue => exact Or.inl rfl
  case isTrue => exact Or.inl rfl
  case isFalse h1 h2 h3 h4 =>
    refine Or.inr ⟨?_, rfl⟩
    intro u hu hc
    exact h4 (List.any_eq_true.mpr ⟨u, hu, beq_iff_eq.mpr hc⟩)

theorem updateUserProfile_users (userId : String) (p : UserPayload) (s : State) :
    ((updateUserProfile userId p s).2).users = s.users ∨
    (∃ user, mget s.users userId = some user ∧
     (∀ u ∈ mvalues s.users, u.email = p.email → u.userId = userId) ∧
     ((updateUserProfile userId p s).2).users =
       mput s.users userId
         { user with name := p.name, email := p.email, phoneNumber := p.phoneNumber }) := by
  unfold updateUserProfile
  repeat' split
  case isTrue => exact Or.inl rfl
  case isTrue => exact Or.inl rfl
  case isTrue => exact Or.inl rfl
  case isTrue => exact Or.inl rfl
  case h_1 => exact Or.inl rfl
  case h_2 hf h1 h2 h3 x user heq =>
    refine Or.inr ⟨user, heq, ?_, rfl⟩
    intro u hu hmail
    by_contra hne
    exact h2 (List.any_eq_true.mpr ⟨u, hu, by
      rw [Bool.and_eq_true, beq_iff_eq, bne_iff_ne]
      exact ⟨hmail, hne⟩⟩)

theorem createSwapRequest_swaps (now : Nat) (p : SwapRequestPayload) (s : State) :
    ((createSwapRequest now p s).2).swaps = s.swaps ∨
    ((∀ r ∈ mvalues s.swaps, sameTriple p r = false) ∧
     ((createSwapRequest now p s).2).swaps =
       mput s.swaps (genId s.nextId)
         ⟨genId s.nextId, p.ownerId, p.requesterId, p.bookId, "Pending", now⟩) := by
  unfold createSwapRequest
  repeat' split
  case isTrue => exact Or.inl rfl
  case h_1 => exact Or.inl rfl
  case h_1 => exact Or.inl rfl
  case h_1 => exact Or.inl rfl
  case isTrue => exact Or.inl rfl
  case isTrue => exact Or.inl rfl
  case isFalse hf x1 x2 x3 h1 h2 =>
    refine Or.inr ⟨?_, rfl⟩
    intro r hr
    by_contra hc
    exact h1 (List.any_eq_true.mpr ⟨r, hr, by
      cases h : sameTriple p r
      · exact absurd h hc
      · rfl⟩)

theorem acceptSwapRequest_swaps (swapRequestId : String) (s : State) :
    ((acceptSwapRequest swapRequestId s).2).swaps = s.swaps ∨
    (∃ r, mget s.swaps swapRequestId = some r ∧
     ((acceptSwapRequest swapRequestId s).2).swaps =
       mput s.swaps swapRequestId { r with status := "Completed" }) := by
  unfold acceptSwapRequest
  split
  · exact Or.inl rfl
  · rename_i r heq
    exact Or.inr ⟨r, heq, rfl⟩

theorem rejectSwapRequest_swaps (swapRequestId : String) (s : State) :
    ((rejectSwapRequest swapRequestId s).2).swaps = s.swaps ∨
    (∃ r, mget s.swaps swapRequestId = some r ∧
     ((rejectSwapRequest swapRequestId s).2).swaps =
       mput s.swaps swapRequestId { r with status := "Rejected" }) := by
  unfold rejectSwapRequest
  split
  · exact Or.inl rfl
  · rename_i r heq
    exact Or.inr ⟨r, heq, rfl⟩

theorem deleteSwapRequest_swaps (swapRequestId : String) (s : State) :
    ((deleteSwapRequest swapRequestId s).2).swaps = s.swaps ∨
    ((deleteSwapRequest swapRequestId s).2).swaps = mdel s.swaps swapRequestId := by
  unfold deleteSwapRequest
  split
  · exact Or.inl rfl
  · exact Or.inr rfl

theorem updateSwapRequest_swaps (swapRequestId : String) (p : SwapRequestPayload)
    (s : State) :
    ((updateSwapRequest swapRequestId p s).2).swaps = s.swaps ∨
    (∃ r, mget s.swaps swapRequestId = some r ∧
     ((updateSwapRequest swapRequestId p s).2).swaps =
       mput s.swaps swapRequestId
         { r with ownerId := p.ownerId, requesterId := p.requesterId, bookId := p.bookId }) := by
  unfold updateSwapRequest
  split
  · exact Or.inl rfl
  · rename_i r heq
    exact Or.inr ⟨r, heq, rfl⟩

theorem createFeedback_feedbacks (now : Nat) (p : FeedbackPayload) (s : State) :
    ((createFeedback now p s).2).feedbacks = s.feedbacks ∨
    ((createFeedback now p s).2).feedbacks =
      mput s.feedbacks (genId s.nextId)
        ⟨genId s.nextId, p.userId, p.swapRequestId, p.rating, p.comment, now⟩ := by
  unfold createFeedback
  repeat' split
  all_goals first
    | exact Or.inl rfl
    | exact Or.inr rfl

theorem updateFeedback_feedbacks (caller : Principal) (p : FeedbackPayload)
    (s : State) :
    ((updateFeedback caller p s).2).feedbacks = s.feedbacks ∨
    (∃ fb, mget s.feedbacks caller = some fb ∧
     ((updateFeedback caller p s).2).feedbacks =
       mput s.feedbacks caller
         { fb with userId := p.userId, swapRequestId := p.swapRequestId
                   rating := p.rating, comment := p.comment }) := by
  unfold updateFeedback
  dsimp only
  split
  · exact Or.inl rfl
  · split
    · exact Or.inl rfl
    · rename_i fb heq
      exact Or.inr ⟨fb, heq, rfl⟩

theorem deleteFeedback_feedbacks (feedbackId : String) (s : State) :
    ((deleteFeedback feedbackId s).2).feedbacks = s.feedbacks ∨
    ((deleteFeedback feedbackId s).2).feedbacks = mdel s.feedbacks feedbackId := by
  unfold deleteFeedback
  split
  · exact Or.inl rfl
  · exact Or.inr rfl

theorem mkeys_mdel_sublist {α : Type} (m : List (String × α)) (k : String) :
    (mkeys (mdel m k)).Sublist (mkeys m) :=
  List.Sublist.map Prod.fst (mdel_sublist m k)

theorem mvalues_mdel_sublist {α : Type} (m : List (String × α)) (k : String) :
    (mvalues (mdel m k)).Sublist (mvalues m) :=
  List.Sublist.map Prod.snd (mdel_sublist m k)

/-! ### Reachability invariants -/

/-- Users store health: keys are unique, each stored user's `userId` field is
its key, and no two stored users share an email. -/
def UsersInv (s : State) : Prop :=
  (mkeys s.users).Nodup ∧ (∀ e ∈ s.users, e.2.userId = e.1) ∧
    (mvalues s.users).Pairwise (fun u v => u.email ≠ v.email)

/-- Feedback store health: every key was produced by the id generator
(`createFeedback` stores under `uuidv4()`). -/
def FeedbackInv (s : State) : Prop :=
  ∀ e ∈ s.feedbacks, isGenId e.1 = true

/-- The invariant preserved by every façade operation. -/
def MasterInv (s : State) : Prop := UsersInv s ∧ FeedbackInv s

/-- Swap store health: keys are unique and the `(ownerId, requesterId,
bookId)` triples of the stored requests are pairwise distinct. -/
def SwapInv (s : State) : Prop :=
  (mkeys s.swaps).Nodup ∧
    (mvalues s.swaps).Pairwise
      (fun r1 r2 => ¬(r1.ownerId = r2.ownerId ∧ r1.requesterId = r2.requesterId ∧
        r1.bookId = r2.bookId))

theorem isGenId_genId (n : Nat) : isGenId (genId n) = true := rfl

theorem usersInv_createUserProfile (caller : Principal) (now : Nat)
    (p : UserPayload) {s : State} (h : UsersInv s) :
    UsersInv ((createUserProfile caller now p s).2) := by
  rcases createUserProfile_users caller now p s with hu | ⟨hmail, hu⟩
  · exact ⟨hu ▸ h.1, hu ▸ h.2.1, hu ▸ h.2.2⟩
  · rw [UsersInv, hu]
    refine ⟨mkeys_nodup_mput _ _ h.1, ?_, ?_⟩
    · intro e he
      rcases mem_mput he with h2 | h2
      · exact h.2.1 e h2
      · rw [h2]
    · refine pairwise_mvalues_mput h.1 h.2.2 ?_ ?_
      · intro u hu2
        exact hmail u hu2
      · intro u hu2 hc
        exact hmail u hu2 hc.symm

theorem usersInv_updateUserProfile (userId : String) (p : UserPayload)
    {s : State} (h : UsersInv s) :
    UsersInv ((updateUserProfile userId p s).2) := by
  rcases updateUserProfile_users userId p s with hu | ⟨user, heq, hmail, hu⟩
  · exact ⟨hu ▸ h.1, hu ▸ h.2.1, hu ▸ h.2.2⟩
  · rw [UsersInv, hu]
    have hkey : user.userId = userId := h.2.1 _ (mget_some_mem heq)
    refine ⟨mkeys_nodup_mput _ _ h.1, ?_, ?_⟩
    · intro e he
      rcases mem_mput he with h2 | h2
      · exact h.2.1 e h2
      · rw [h2]; exact hkey
    · rcases mput_split h.1 heq
        { user with name := p.name, email := p.email, phoneNumber := p.phoneNumber }
          with ⟨l1, l2, hm, h1, h2, hput⟩
      rw [hput, mvalues_append]
      have hmv : mvalues s.users = mvalues l1 ++ user :: mvalues l2 := by
        rw [hm, mvalues_append]; rfl
      rw [show mvalues ((userId,
          { user with name := p.name, email := p.email, phoneNumber := p.phoneNumber }) :: l2) =
        { user with name := p.name, email := p.email, phoneNumber := p.phoneNumber } ::
          mvalues l2 from rfl]
      have hother : ∀ e ∈ l1 ++ (userId, user) :: l2, e.1 ≠ userId → e.2.email ≠ p.email := by
        intro e he hne hc
        have hmem : e.2 ∈ mvalues s.users := by
          rw [hm]
          exact List.mem_map_of_mem Prod.snd he
        exact hne ((h.2.1 e (hm ▸ he)) ▸ hmail e.2 hmem hc)
      refine pairwise_append_replace (hmv ▸ h.2.2) ?_ ?_
      · intro x hx
        rcases List.mem_map.mp hx with ⟨e, he, hxe⟩
        show x.email ≠ p.email
        exact hxe ▸ hother e (List.mem_append_left _ he) (h1 e he)
      · intro x hx hc
        rcases List.mem_map.mp hx with ⟨e, he, hxe⟩
        exact hother e (List.mem_append_right _ (List.mem_cons_of_mem _ he)) (h2 e he)
          (hxe ▸ hc.symm)

theorem feedbackInv_createFeedback (now : Nat) (p : FeedbackPayload)
    {s : State} (h : FeedbackInv s) :
    FeedbackInv ((createFeedback now p s).2) := by
  rcases createFeedback_feedbacks now p s with hf | hf
  · exact fun e he => h e (hf ▸ he)
  · intro e he
    rcases mem_mput (hf ▸ he) with h2 | h2
    · exact h e h2
    · rw [h2]; exact isGenId_genId _

theorem feedbackInv_updateFeedback (caller : Principal) (p : FeedbackPayload)
    {s : State} (h : FeedbackInv s) :
    FeedbackInv ((updateFeedback caller p s).2) := by
  rcases updateFeedback_feedbacks caller p s with hf | ⟨fb, heq, hf⟩
  · exact fun e he => h e (hf ▸ he)
  · intro e he
    rcases mem_mput (hf ▸ he) with h2 | h2
    · exact h e h2
    · rw [h2]
      exact h (caller, fb) (mget_some_mem heq)

theorem feedbackInv_deleteFeedback (feedbackId : String) {s : State}
    (h : FeedbackInv s) : FeedbackInv ((deleteFeedback feedbackId s).2) := by
  rcases deleteFeedback_feedbacks feedbackId s with hf | hf
  · exact fun e he => h e (hf ▸ he)
  · exact fun e he => h e ((mdel_sublist _ _).subset (hf ▸ he))

/-- Every façade operation preserves the master invariant. -/
theorem masterInv_exec (o : Op) {s : State} (h : MasterInv s) :
    MasterInv (exec o s) := by
  have husers : ∀ s2 : State, s2.users = s.users → s2.feedbacks = s.feedbacks →
      MasterInv s2 := by
    intro s2 hu hf
    exact ⟨⟨hu ▸ h.1.1, hu ▸ h.1.2.1, hu ▸ h.1.2.2⟩, fun e he => h.2 e (hf ▸ he)⟩
  cases o with
  | opCreateUserProfile caller now p =>
    exact ⟨usersInv_createUserProfile caller now p h.1,
      fun e he => h.2 e ((createUserProfile_frame caller now p s).2.2 ▸ he)⟩
  | opUpdateUserProfile userId p =>
    exact ⟨usersInv_updateUserProfile userId p h.1,
      fun e he => h.2 e ((updateUserProfile_frame userId p s).2.2 ▸ he)⟩
  | opListBook now p =>
    exact husers _ (listBook_frame now p s).1 (listBook_frame now p s).2.2
  | opUpdateBook bookId p =>
    exact husers _ (updateBook_frame bookId p s).1 (updateBook_frame bookId p s).2.2
  | opDeleteBook bookId =>
    exact husers _ (deleteBook_frame bookId s).1 (deleteBook_frame bookId s).2.2
  | opCreateSwapRequest now p =>
    exact husers _ (createSwapRequest_frame now p s).1
      (createSwapRequest_frame now p s).2.2
  | opUpdateSwapRequest id p =>
    exact husers _ (updateSwapRequest_frame id p s).1
      (updateSwapRequest_frame id p s).2.2
  | opAcceptSwapRequest id =>
    exact husers _ (acceptSwapRequest_frame id s).1 (acceptSwapRequest_frame id s).2.2
  | opRejectSwapRequest id =>
    exact husers _ (rejectSwapRequest_frame id s).1 (rejectSwapRequest_frame id s).2.2
  | opDeleteSwapRequest id =>
    exact husers _ (deleteSwapRequest_frame id s).1 (deleteSwapRequest_frame id s).2.2
  | opCreateFeedback now p =>
    have hu := (createFeedback_frame now p s).1
    exact ⟨⟨hu ▸ h.1.1, hu ▸ h.1.2.1, hu ▸ h.1.2.2⟩,
      feedbackInv_createFeedback now p h.2⟩
  | opUpdateFeedback caller p =>
    have hu := (updateFeedback_frame caller p s).1
    exact ⟨⟨hu ▸ h.1.1, hu ▸ h.1.2.1, hu ▸ h.1.2.2⟩,
      feedbackInv_updateFeedback caller p h.2⟩
  | opDeleteFeedback id =>
    have hu := (deleteFeedback_frame id s).1
    exact ⟨⟨hu ▸ h.1.1, hu ▸ h.1.2.1, hu ▸ h.1.2.2⟩,
      feedbackInv_deleteFeedback id h.2⟩

theorem masterInv_initState : MasterInv initState := by
  refine ⟨⟨?_, ?_, ?_⟩, ?_⟩ <;> simp [initState, mkeys, mvalues, FeedbackInv]

theorem masterInv_execSeq (ops : List Op) : MasterInv (execSeq ops) := by
  have hgen : ∀ (l : List Op) (s : State), MasterInv s →
      MasterInv (l.foldl (fun s2 o => exec o s2) s) := by
    intro l
    induction l with
    | nil => exact fun s hs => hs
    | cons o rest ih => exact fun s hs => ih _ (masterInv_exec o hs)
  exact hgen ops initState masterInv_initState

/-- Recognizer for the one operation that skips the duplicate-triple check. -/
def isOpUpdateSwapRequest : Op → Bool
  | .opUpdateSwapRequest _ _ => true
  | _ => false

theorem swapInv_createSwapRequest (now : Nat) (p : SwapRequestPayload)
    {s : State} (h : SwapInv s) : SwapInv ((createSwapRequest now p s).2) := by
  rcases createSwapRequest_swaps now p s with hs | ⟨hall, hs⟩
  · exact ⟨hs ▸ h.1, hs ▸ h.2⟩
  · rw [SwapInv, hs]
    refine ⟨mkeys_nodup_mput _ _ h.1, ?_⟩
    have hne : ∀ r ∈ mvalues s.swaps,
        ¬(r.ownerId = p.ownerId ∧ r.requesterId = p.requesterId ∧ r.bookId = p.bookId) := by
      intro r hr hc
      have : sameTriple p r = true := by
        simp [sameTriple, hc.1, hc.2.1, hc.2.2]
      rw [hall r hr] at this
      exact Bool.false_ne_true this
    refine pairwise_mvalues_mput h.1 h.2 ?_ ?_
    · intro r hr hc
      exact hne r hr hc
    · intro r hr hc
      exact hne r hr ⟨hc.1.symm, hc.2.1.symm, hc.2.2.symm⟩

theorem swapInv_acceptSwapRequest (swapRequestId : String) {s : State}
    (h : SwapInv s) : SwapInv ((acceptSwapRequest swapRequestId s).2) := by
  rcases acceptSwapRequest_swaps swapRequestId s with hs | ⟨r, heq, hs⟩
  · exact ⟨hs ▸ h.1, hs ▸ h.2⟩
  · rw [SwapInv, hs]
    exact ⟨mkeys_nodup_mput _ _ h.1,
      pairwise_mvalues_mput_congr h.1 heq h.2 (fun x hx => hx) (fun x hx => hx)⟩

theorem swapInv_rejectSwapRequest (swapRequestId : String) {s : State}
    (h : SwapInv s) : SwapInv ((rejectSwapRequest swapRequestId s).2) := by
  rcases rejectSwapRequest_swaps swapRequestId s with hs | ⟨r, heq, hs⟩
  · exact ⟨hs ▸ h.1, hs ▸ h.2⟩
  · rw [SwapInv, hs]
    exact ⟨mkeys_nodup_mput _ _ h.1,
      pairwise_mvalues_mput_congr h.1 heq h.2 (fun x hx => hx) (fun x hx => hx)⟩

theorem swapInv_deleteSwapRequest (swapRequestId : String) {s : State}
    (h : SwapInv s) : SwapInv ((deleteSwapRequest swapRequestId s).2) := by
  rcases deleteSwapRequest_swaps swapRequestId s with hs | hs
  · exact ⟨hs ▸ h.1, hs ▸ h.2⟩
  · rw [SwapInv, hs]
    exact ⟨List.Nodup.sublist (mkeys_mdel_sublist _ _) h.1,
      List.Pairwise.sublist (mvalues_mdel_sublist _ _) h.2⟩

/-- Every façade operation except `updateSwapRequest` preserves the
distinct-triples invariant of the swap store. -/
theorem swapInv_exec (o : Op) (ho : isOpUpdateSwapRequest o = false) {s : State}
    (h : SwapInv s) : SwapInv (exec o s) := by
  have huntouched : ∀ s2 : State, s2.swaps = s.swaps → SwapInv s2 := by
    intro s2 hs
    exact ⟨hs ▸ h.1, hs ▸ h.2⟩
  cases o with
  | opCreateUserProfile caller now p =>
    exact huntouched _ (createUserProfile_frame caller now p s).2.1
  | opUpdateUserProfile userId p =>
    exact huntouched _ (updateUserProfile_frame userId p s).2.1
  | opListBook now p => exact huntouched _ (listBook_frame now p s).2.1
  | opUpdateBook bookId p => exact huntouched _ (updateBook_frame bookId p s).2.1
  | opDeleteBook bookId => exact huntouched _ (deleteBook_frame bookId s).2.1
  | opCreateSwapRequest now p => exact swapInv_createSwapRequest now p h
  | opUpdateSwapRequest id p => exact absurd ho (by simp [isOpUpdateSwapRequest])
  | opAcceptSwapRequest id => exact swapInv_acceptSwapRequest id h
  | opRejectSwapRequest id => exact swapInv_rejectSwapRequest id h
  | opDeleteSwapRequest id => exact swapInv_deleteSwapRequest id h
  | opCreateFeedback now p => exact huntouched _ (createFeedback_frame now p s).2.2
  | opUpdateFeedback caller p => exact huntouched _ (updateFeedback_frame caller p s).2.2
  | opDeleteFeedback id => exact huntouched _ (deleteFeedback_frame id s).2.2

theorem swapInv_execSeq (ops : List Op)
    (hops : ∀ o ∈ ops, isOpUpdateSwapRequest o = false) :
    SwapInv (execSeq ops) := by
  have hgen : ∀ (l : List Op) (s : State),
      (∀ o ∈ l, isOpUpdateSwapRequest o = false) → SwapInv s →
      SwapInv (l.foldl (fun s2 o => exec o s2) s) := by
    intro l
    induction l with
    | nil => exact fun s _ hs => hs
    | cons o rest ih =>
      intro s hl hs
      exact ih _ (fun o2 h2 => hl o2 (List.mem_cons_of_mem _ h2))
        (swapInv_exec o (hl o (List.mem_cons_self _ _)) hs)
  refine hgen ops initState hops ⟨?_, ?_⟩ <;> simp [initState, mkeys, mvalues]

/-! ### Concrete façade scenarios used by the witnesses and counterexamples -/

/-- Two users, one book owned by the first, and one pending swap request
`id-3` with triple `("id-0", "id-1", "id-2")`. -/
def wOps : List Op :=
  [ .opCreateUserProfile "alice" 0 ⟨"Alice", "a@b.c", "0123456789"⟩,
    .opCreateUserProfile "bob" 1 ⟨"Bob", "b@b.c", "0123456780"⟩,
    .opListBook 2 ⟨"id-0", "T", "A", "G", "D", "I"⟩,
    .opCreateSwapRequest 3 ⟨"id-0", "id-1", "id-2"⟩ ]

def wState : State := execSeq wOps

/-! ### C4: accept/reject a swap request -/

/-- C4: for an id not in the swap store, `acceptSwapRequest` and
`rejectSwapRequest` return `NotFound` and leave the state unchanged; for a
stored id they return and store the request with status set to `Completed`
(resp. `Rejected`) — the record update `{ r with status := ... }` keeps
`swapRequestId`, `ownerId`, `requesterId`, `bookId` and `createdAt` — while
every other swap-store key and the users, books and feedback stores are
untouched. -/
theorem c4_accept_reject_terminal (s : State) (id : String) :
    (mget s.swaps id = none →
      acceptSwapRequest id s = (.error (.NotFound "Swap request not found."), s) ∧
      rejectSwapRequest id s = (.error (.NotFound "Swap request not found"), s)) ∧
    (∀ r, mget s.swaps id = some r →
      (acceptSwapRequest id s).1 = .ok { r with status := "Completed" } ∧
      mget ((acceptSwapRequest id s).2).swaps id = some { r with status := "Completed" } ∧
      (∀ k2, k2 ≠ id → mget ((acceptSwapRequest id s).2).swaps k2 = mget s.swaps k2) ∧
      ((acceptSwapRequest id s).2).users = s.users ∧
      ((acceptSwapRequest id s).2).books = s.books ∧
      ((acceptSwapRequest id s).2).feedbacks = s.feedbacks ∧
      (rejectSwapRequest id s).1 = .ok { r with status := "Rejected" } ∧
      mget ((rejectSwapRequest id s).2).swaps id = some { r with status := "Rejected" } ∧
      (∀ k2, k2 ≠ id → mget ((rejectSwapRequest id s).2).swaps k2 = mget s.swaps k2) ∧
      ((rejectSwapRequest id s).2).users = s.users ∧
      ((rejectSwapRequest id s).2).books = s.books ∧
      ((rejectSwapRequest id s).2).feedbacks = s.feedbacks) := by
  constructor
  · intro h
    constructor
    · unfold acceptSwapRequest
      rw [h]
    · unfold rejectSwapRequest
      rw [h]
  · intro r h
    have hacc : acceptSwapRequest id s =
        (.ok { r with status := "Completed" },
         { s with swaps := mput s.swaps id { r with status := "Completed" } }) := by
      unfold acceptSwapRequest
      rw [h]
    have hrej : rejectSwapRequest id s =
        (.ok { r with status := "Rejected" },
         { s with swaps := mput s.swaps id { r with status := "Rejected" } }) := by
      unfold rejectSwapRequest
      rw [h]
    rw [hacc, hrej]
    exact ⟨rfl, mget_mput_self _ _ _, fun k2 hk2 => mget_mput_ne _ _ hk2,
      rfl, rfl, rfl,
      rfl, mget_mput_self _ _ _, fun k2 hk2 => mget_mput_ne _ _ hk2,
      rfl, rfl, rfl⟩

/-- Witness for C4 at the concrete scenario `wState`: a missing id is
rejected with `NotFound`, and accepting the stored request `id-3` marks it
`Completed`. -/
theorem c4_accept_reject_terminal_witness :
    rejectSwapRequest "zzz" wState =
      (.error (.NotFound "Swap request not found"), wState) ∧
    (acceptSwapRequest "id-3" wState).1 =
      .ok ⟨"id-3", "id-0", "id-1", "id-2", "Completed", 3⟩ :=
  ⟨((c4_accept_reject_terminal wState "zzz").1 (by decide)).2,
   ((c4_accept_reject_terminal wState "id-3").2
      ⟨"id-3", "id-0", "id-1", "id-2", "Pending", 3⟩ (by decide)).1⟩

/-! ### C3: email uniqueness -/

/-- C3: (1) in every state reachable from the empty state through the
façade, no two stored users have the same email; (2) in any state,
`createUserProfile` with an email already held by some stored user fails
with `InvalidPayload` and leaves the state unchanged; (3) in any state,
`updateUserProfile` giving a user an email held by a user with a different
`userId` fails with `InvalidPayload` and leaves the state unchanged. -/
theorem c3_email_unique (ops : List Op) (caller : Principal) (now : Nat)
    (p q : UserPayload) (userId : String) (s : State) :
    (s = execSeq ops → (mvalues s.users).Pairwise (fun u v => u.email ≠ v.email)) ∧
    ((∃ u ∈ mvalues s.users, u.email = p.email) →
      (∃ msg, (createUserProfile caller now p s).1 = .error (.InvalidPayload msg)) ∧
      (createUserProfile caller now p s).2 = s) ∧
    ((∃ u ∈ mvalues s.users, u.email = q.email ∧ u.userId ≠ userId) →
      (∃ msg, (updateUserProfile userId q s).1 = .error (.InvalidPayload msg)) ∧
      (updateUserProfile userId q s).2 = s) := by
  refine ⟨?_, ?_, ?_⟩
  · intro h
    subst h
    exact (masterInv_execSeq ops).1.2.2
  · intro h
    obtain ⟨u, hu, hmail⟩ := h
    have hany : (mvalues s.users).any (fun v => v.email == p.email) = true :=
      List.any_eq_true.mpr ⟨u, hu, beq_iff_eq.mpr hmail⟩
    unfold createUserProfile
    repeat' split
    all_goals exact ⟨⟨_, rfl⟩, rfl⟩
  · intro h
    obtain ⟨u, hu, hmail, hne⟩ := h
    have hany : (mvalues s.users).any
        (fun v => v.email == q.email && v.userId != userId) = true :=
      List.any_eq_true.mpr ⟨u, hu, by
        rw [Bool.and_eq_true, beq_iff_eq, bne_iff_ne]
        exact ⟨hmail, hne⟩⟩
    unfold updateUserProfile
    repeat' split
    all_goals exact ⟨⟨_, rfl⟩, rfl⟩

/-- Witness for C3 at the concrete scenario `wState` (users `id-0` with
email `a@b.c` and `id-1` with email `b@b.c`). -/
theorem c3_email_unique_witness :
    (mvalues wState.users).Pairwise (fun u v => u.email ≠ v.email) ∧
    ((∃ msg, (createUserProfile "carol" 9 ⟨"Carol", "a@b.c", "0123456781"⟩ wState).1 =
        .error (.InvalidPayload msg)) ∧
      (createUserProfile "carol" 9 ⟨"Carol", "a@b.c", "0123456781"⟩ wState).2 = wState) ∧
    ((∃ msg, (updateUserProfile "id-1" ⟨"Bob", "a@b.c", "0123456780"⟩ wState).1 =
        .error (.InvalidPayload msg)) ∧
      (updateUserProfile "id-1" ⟨"Bob", "a@b.c", "0123456780"⟩ wState).2 = wState) :=
  ⟨(c3_email_unique wOps "carol" 9 ⟨"Carol", "a@b.c", "0123456781"⟩
      ⟨"Bob", "a@b.c", "0123456780"⟩ "id-1" wState).1 rfl,
   (c3_email_unique wOps "carol" 9 ⟨"Carol", "a@b.c", "0123456781"⟩
      ⟨"Bob", "a@b.c", "0123456780"⟩ "id-1" wState).2.1
     ⟨⟨"id-0", "alice", "Alice", "a@b.c", "0123456789", 0⟩, by decide, by decide⟩,
   (c3_email_unique wOps "carol" 9 ⟨"Carol", "a@b.c", "0123456781"⟩
      ⟨"Bob", "a@b.c", "0123456780"⟩ "id-1" wState).2.2
     ⟨⟨"id-0", "alice", "Alice", "a@b.c", "0123456789", 0⟩, by decide, by decide, by decide⟩⟩

/-! ### C10: updateFeedback looks up the caller principal, never a feedback id -/

/-- C10: every key in the feedback store of a reachable state was produced
by the id generator (`createFeedback` stores under `uuidv4()`), so for any
caller whose principal text is not a generated id — as is the case on the
IC, where principal texts and uuid texts have disjoint formats — a
`updateFeedback` call with a valid payload returns `NotFound` and changes
nothing: it can never succeed on a feedback created through the façade. -/
theorem c10_updateFeedback_never_finds (ops : List Op) (caller : Principal)
    (p : FeedbackPayload) (s : State)
    (hreach : s = execSeq ops) (hcaller : isGenId caller = false)
    (hrat : p.rating ≠ 0) (hcom : p.comment ≠ "") :
    updateFeedback caller p s = (.error (.NotFound "Feedback not found"), s) := by
  subst hreach
  have hget : mget (execSeq ops).feedbacks caller = none := by
    cases hm : mget (execSeq ops).feedbacks caller with
    | none => rfl
    | some fb =>
      have h2 := (masterInv_execSeq ops).2 (caller, fb) (mget_some_mem hm)
      rw [hcaller] at h2
      exact absurd h2 Bool.false_ne_true
  have hcond : (p.rating == 0 || p.comment == "") = false := by
    simp [hrat, hcom]
  unfold updateFeedback
  dsimp only
  rw [hcond, hget]
  exact rfl

/-- Witness for C10: in the reachable state `wState` (no feedback stored),
`updateFeedback` for caller `alice` with a valid payload returns
`NotFound`. -/
theorem c10_updateFeedback_never_finds_witness :
    updateFeedback "alice" ⟨"id-0", "id-3", 5, "great"⟩ wState =
      (.error (.NotFound "Feedback not found"), wState) :=
  c10_updateFeedback_never_finds wOps "alice" ⟨"id-0", "id-3", 5, "great"⟩ wState
    rfl (by decide) (by decide) (by decide)

/-! ### C1: at most one non-Completed request per triple -/

/-- C1 (amended): every façade operation except `updateSwapRequest`
preserves the invariant; from the empty state, any call sequence avoiding
`updateSwapRequest` leaves the swap store with at most one request per
`(ownerId, requesterId, bookId)` triple whose status is not `Completed`. -/
theorem c1_at_most_one_active_per_triple (ops : List Op)
    (hops : ∀ o ∈ ops, isOpUpdateSwapRequest o = false) :
    (mvalues (execSeq ops).swaps).Pairwise
      (fun r1 r2 => ¬(r1.ownerId = r2.ownerId ∧ r1.requesterId = r2.requesterId ∧
        r1.bookId = r2.bookId ∧ r1.status ≠ "Completed" ∧ r2.status ≠ "Completed")) :=
  ((swapInv_execSeq ops hops).2).imp (fun h hc => h ⟨hc.1, hc.2.1, hc.2.2.1⟩)

/-- Witness for C1 at the concrete scenario `wOps`, which creates users, a
book and a swap request but never calls `updateSwapRequest`. -/
theorem c1_at_most_one_active_per_triple_witness :
    (mvalues (execSeq wOps).swaps).Pairwise
      (fun r1 r2 => ¬(r1.ownerId = r2.ownerId ∧ r1.requesterId = r2.requesterId ∧
        r1.bookId = r2.bookId ∧ r1.status ≠ "Completed" ∧ r2.status ≠ "Completed")) :=
  c1_at_most_one_active_per_triple wOps (by decide)

/-- A façade sequence that creates two pending swap requests on different
books and then rewrites the second request's triple onto the first via
`updateSwapRequest`. -/
def c1ceOps : List Op :=
  [ .opCreateUserProfile "alice" 0 ⟨"Alice", "a@b.c", "0123456789"⟩,
    .opCreateUserProfile "bob" 1 ⟨"Bob", "b@b.c", "0123456780"⟩,
    .opListBook 2 ⟨"id-0", "T", "A", "G", "D", "I"⟩,
    .opListBook 3 ⟨"id-0", "T2", "A2", "G2", "D2", "I2"⟩,
    .opCreateSwapRequest 4 ⟨"id-0", "id-1", "id-2"⟩,
    .opCreateSwapRequest 5 ⟨"id-0", "id-1", "id-3"⟩,
    .opUpdateSwapRequest "id-5" ⟨"id-0", "id-1", "id-2"⟩ ]

/-- Counterexample to C1 as stated: after the reachable sequence `c1ceOps`
(which includes an `updateSwapRequest` call) the swap store holds two
`Pending` requests with the identical triple `("id-0", "id-1", "id-2")`. -/
theorem c1_counterexample :
    ¬ (mvalues (execSeq c1ceOps).swaps).Pairwise
      (fun r1 r2 => ¬(r1.ownerId = r2.ownerId ∧ r1.requesterId = r2.requesterId ∧
        r1.bookId = r2.bookId ∧ r1.status ≠ "Completed" ∧ r2.status ≠ "Completed")) := by
  decide

/-! ### C2: duplicate swap-request triples are rejected -/

/-- C2 (amended): provided the payload's `ownerId` and `requesterId` resolve
to stored users and its `bookId` to a stored book, `createSwapRequest` for a
triple already present in the swap store (in any status) fails with
`InvalidPayload` and leaves the state unchanged. -/
theorem c2_duplicate_triple_rejected (now : Nat) (p : SwapRequestPayload)
    (s : State) (ho : (mget s.users p.ownerId).isSome)
    (hr : (mget s.users p.requesterId).isSome)
    (hb : (mget s.books p.bookId).isSome)
    (hx : ∃ r ∈ mvalues s.swaps, sameTriple p r = true) :
    (∃ msg, (createSwapRequest now p s).1 = .error (.InvalidPayload msg)) ∧
    (createSwapRequest now p s).2 = s := by
  obtain ⟨uo, huo⟩ := Option.isSome_iff_exists.mp ho
  obtain ⟨ur, hur⟩ := Option.isSome_iff_exists.mp hr
  obtain ⟨bk, hbk⟩ := Option.isSome_iff_exists.mp hb
  obtain ⟨r, hrmem, hrtrip⟩ := hx
  have hany : (mvalues s.swaps).any (sameTriple p) = true :=
    List.any_eq_true.mpr ⟨r, hrmem, hrtrip⟩
  unfold createSwapRequest
  rw [huo, hur, hbk, hany]
  split
  · exact ⟨⟨_, rfl⟩, rfl⟩
  · exact ⟨⟨_, rfl⟩, rfl⟩

/-- Witness for C2 at the concrete scenario `wState`: recreating the stored
triple `("id-0", "id-1", "id-2")` is rejected with `InvalidPayload` and the
state is unchanged. -/
theorem c2_duplicate_triple_rejected_witness :
    (∃ msg, (createSwapRequest 9 ⟨"id-0", "id-1", "id-2"⟩ wState).1 =
      .error (.InvalidPayload msg)) ∧
    (createSwapRequest 9 ⟨"id-0", "id-1", "id-2"⟩ wState).2 = wState :=
  c2_duplicate_triple_rejected 9 ⟨"id-0", "id-1", "id-2"⟩ wState
    (by decide) (by decide) (by decide)
    ⟨⟨"id-3", "id-0", "id-1", "id-2", "Pending", 3⟩, by decide, by decide⟩

/-- The scenario of `wOps` followed by deletion of the requested book. -/
def c2ceOps : List Op := wOps ++ [.opDeleteBook "id-2"]

/-- Counterexample to C2 as stated: in the reachable state `execSeq c2ceOps`
a swap request with triple `("id-0", "id-1", "id-2")` is stored, yet
`createSwapRequest` for that triple returns `NotFound` (the book was
deleted), not `InvalidPayload`. -/
theorem c2_counterexample :
    ((mvalues (execSeq c2ceOps).swaps).any
      (sameTriple ⟨"id-0", "id-1", "id-2"⟩)) = true ∧
    (createSwapRequest 9 ⟨"id-0", "id-1", "id-2"⟩ (execSeq c2ceOps)).1 =
      .error (.NotFound "Book not found") := by
  decide

/-! ### C8: create/read round trip for books -/

/-- C8: when `listBook` succeeds (non-empty checked fields, existing user)
it returns a book whose payload fields equal the submitted payload, with the
server-assigned `bookId` (the fresh id) and `createdAt` (the call time), and
`getBook` on that id in the new state returns exactly that book. -/
theorem c8_list_get_roundtrip (now : Nat) (p : BookPayload) (s : State)
    (ht : p.title ≠ "") (ha : p.author ≠ "") (hd : p.description ≠ "")
    (hi : p.imageUrl ≠ "") (hu : (mget s.users p.userId).isSome) :
    (listBook now p s).1 =
      .ok ⟨genId s.nextId, p.userId, p.title, p.author, p.genre, p.description,
        p.imageUrl, now⟩ ∧
    getBook (genId s.nextId) ((listBook now p s).2) =
      .ok ⟨genId s.nextId, p.userId, p.title, p.author, p.genre, p.description,
        p.imageUrl, now⟩ := by
  obtain ⟨u, huu⟩ := Option.isSome_iff_exists.mp hu
  have hcond : (p.title == "" || p.author == "" || p.description == "" ||
      p.imageUrl == "") = false := by
    simp [ht, ha, hd, hi]
  have hlist : listBook now p s =
      (.ok ⟨genId s.nextId, p.userId, p.title, p.author, p.genre, p.description,
        p.imageUrl, now⟩,
       { s with
          books := mput s.books (genId s.nextId)
            ⟨genId s.nextId, p.userId, p.title, p.author, p.genre, p.description,
              p.imageUrl, now⟩
          nextId := s.nextId + 1 }) := by
    unfold listBook
    rw [hcond, huu]
    exact rfl
  refine ⟨by rw [hlist], ?_⟩
  rw [hlist]
  unfold getBook
  rw [show ({ s with
      books := mput s.books (genId s.nextId)
        ⟨genId s.nextId, p.userId, p.title, p.author, p.genre, p.description,
          p.imageUrl, now⟩
      nextId := s.nextId + 1 } : State).books = mput s.books (genId s.nextId)
        ⟨genId s.nextId, p.userId, p.title, p.author, p.genre, p.description,
          p.imageUrl, now⟩ from rfl]
  rw [mget_mput_self]

/-- Witness for C8 at the concrete scenario `wState`: listing a new book
yields `id-4`, and reading `id-4` returns the same record. -/
theorem c8_list_get_roundtrip_witness :
    (listBook 9 ⟨"id-0", "T3", "A3", "G3", "D3", "I3"⟩ wState).1 =
      .ok ⟨"id-4", "id-0", "T3", "A3", "G3", "D3", "I3", 9⟩ ∧
    getBook "id-4" ((listBook 9 ⟨"id-0", "T3", "A3", "G3", "D3", "I3"⟩ wState).2) =
      .ok ⟨"id-4", "id-0", "T3", "A3", "G3", "D3", "I3", 9⟩ :=
  c8_list_get_roundtrip 9 ⟨"id-0", "T3", "A3", "G3", "D3", "I3"⟩ wState
    (by decide) (by decide) (by decide) (by decide) (by decide)

/-! ### C9: required-field validation of listBook -/

/-- C9 (amended): `listBook` rejects an empty `title`, `author`,
`description` or `imageUrl` with an `InvalidPayload` naming those fields,
before any state change; `genre` and `userId` are not part of this check. -/
theorem c9_listBook_required_fields (now : Nat) (p : BookPayload) (s : State)
    (h : p.title = "" ∨ p.author = "" ∨ p.description = "" ∨ p.imageUrl = "") :
    listBook now p s =
      (.error (.InvalidPayload
        "Ensure 'title', 'author', 'description', and 'imageUrl' are provided."), s) := by
  have hcond : (p.title == "" || p.author == "" || p.description == "" ||
      p.imageUrl == "") = true := by
    rcases h with h | h | h | h <;> simp [h]
  unfold listBook
  rw [hcond]
  exact rfl

/-- Witness for the amended C9: an empty `title` is rejected. -/
theorem c9_listBook_required_fields_witness :
    listBook 9 ⟨"id-0", "", "A", "G", "D", "I"⟩ wState =
      (.error (.InvalidPayload
        "Ensure 'title', 'author', 'description', and 'imageUrl' are provided."), wState) :=
  c9_listBook_required_fields 9 ⟨"id-0", "", "A", "G", "D", "I"⟩ wState
    (Or.inl rfl)

/-- Counterexample to C9 as stated: in the reachable state `wState`, a
payload with empty `genre` (all other fields non-empty) is accepted —
`listBook` returns `Ok`, not `InvalidPayload` — and a payload with empty
`userId` fails with `NotFound`, not `InvalidPayload`. -/
theorem c9_counterexample :
    (listBook 9 ⟨"id-0", "T", "A", "", "D", "I"⟩ wState).1 =
      .ok ⟨"id-4", "id-0", "T", "A", "", "D", "I", 9⟩ ∧
    (listBook 9 ⟨"", "T", "A", "G", "D", "I"⟩ wState).1 =
      .error (.NotFound "User not found") := by
  decide

/-! ### C6: searchBooks -/

theorem isPrefixB_iff (l1 : List Char) : ∀ l2, isPrefixB l1 l2 = true ↔ l1 <+: l2 := by
  induction l1 with
  | nil => intro l2; simp [isPrefixB]
  | cons a as ih =>
    intro l2
    cases l2 with
    | nil => simp [isPrefixB]
    | cons b bs => simp [isPrefixB, Bool.and_eq_true, beq_iff_eq, ih,
        List.cons_prefix_cons]

theorem isInfixB_iff (l1 l2 : List Char) : isInfixB l1 l2 = true ↔ l1 <:+: l2 := by
  induction l2 with
  | nil =>
    simp only [isInfixB, List.isEmpty_iff]
    constructor
    · intro h
      exact ⟨[], [], by simp [h]⟩
    · rintro ⟨s, t, h⟩
      rcases List.append_eq_nil.mp h with ⟨h1, h2⟩
      rcases List.append_eq_nil.mp h1 with ⟨_, h3⟩
      exact h3
  | cons b bs ih =>
    simp only [isInfixB, Bool.or_eq_true, isPrefixB_iff, ih, List.infix_cons_iff]

/-- C6: `searchBooks` returns exactly the stored books whose title, author
or genre contains the search term as a case-insensitive substring (`<:+:`
on the lowercased character lists), and when no book matches it returns
`NotFound` instead of an empty `Ok` list. -/
theorem c6_searchBooks_characterization (searchTerm : String) (s : State) :
    (∀ b : Book, b ∈ (mvalues s.books).filter (matchesSearch searchTerm) ↔
      (b ∈ mvalues s.books ∧
        (searchTerm.data.map Char.toLower <:+: b.title.data.map Char.toLower ∨
         searchTerm.data.map Char.toLower <:+: b.author.data.map Char.toLower ∨
         searchTerm.data.map Char.toLower <:+: b.genre.data.map Char.toLower))) ∧
    searchBooks searchTerm s =
      (if ((mvalues s.books).filter (matchesSearch searchTerm)).isEmpty then
        .error (.NotFound "No books found matching the search term.")
      else .ok ((mvalues s.books).filter (matchesSearch searchTerm))) := by
  constructor
  · intro b
    rw [List.mem_filter]
    constructor
    · rintro ⟨hb, hm⟩
      refine ⟨hb, ?_⟩
      simpa [matchesSearch, containsCI, Bool.or_eq_true, isInfixB_iff, or_assoc] using hm
    · rintro ⟨hb, hm⟩
      refine ⟨hb, ?_⟩
      simpa [matchesSearch, containsCI, Bool.or_eq_true, isInfixB_iff, or_assoc] using hm
  · rfl

/-- The scenario of the spec's search example: one book with genre
`"Fantasy"` and one without. -/
def c6wOps : List Op :=
  [ .opCreateUserProfile "alice" 0 ⟨"Alice", "a@b.c", "0123456789"⟩,
    .opListBook 2 ⟨"id-0", "Hobbit", "Tolkien", "Fantasy", "D", "I"⟩,
    .opListBook 5 ⟨"id-0", "Dune", "Herbert", "Science", "D", "I"⟩ ]

def c6wState : State := execSeq c6wOps

/-- Witness for C6: searching `"fantasy"` over `c6wState` returns exactly
the one book whose genre is `"Fantasy"` (case-insensitive). -/
theorem c6_searchBooks_characterization_witness :
    searchBooks "fantasy" c6wState =
      .ok [⟨"id-1", "id-0", "Hobbit", "Tolkien", "Fantasy", "D", "I", 2⟩] := by
  have h := (c6_searchBooks_characterization "fantasy" c6wState).2
  rw [h]
  decide

/-! ### C7: getRecentBooks -/

instance : IsTotal Book newerBook :=
  ⟨fun a b => Nat.le_total b.createdAt a.createdAt⟩

instance : IsTrans Book newerBook :=
  ⟨fun _ _ _ h1 h2 => Nat.le_trans h2 h1⟩

/-- C7: `getRecentBooks` returns the stored books sorted by `createdAt`
descending (`newerBook`), truncated to at most 10 elements, and fails with
`NotFound` exactly when the book store is empty: the sort is a permutation
of the stored books, it and its 10-element prefix are sorted descending,
and the result is that prefix (or `NotFound` on the empty store). -/
theorem c7_getRecentBooks_sorted_truncated (s : State) :
    (List.insertionSort newerBook (mvalues s.books)).Perm (mvalues s.books) ∧
    List.Sorted newerBook (List.insertionSort newerBook (mvalues s.books)) ∧
    ((List.insertionSort newerBook (mvalues s.books)).take 10).length ≤ 10 ∧
    List.Sorted newerBook ((List.insertionSort newerBook (mvalues s.books)).take 10) ∧
    getRecentBooks s =
      (if (mvalues s.books).isEmpty then
        .error (.NotFound "No recent books found.")
      else .ok ((List.insertionSort newerBook (mvalues s.books)).take 10)) := by
  refine ⟨List.perm_insertionSort _ _, List.sorted_insertionSort _ _, ?_, ?_, ?_⟩
  · rw [List.length_take]
    exact min_le_left _ _
  · exact List.Pairwise.sublist (List.take_sublist _ _) (List.sorted_insertionSort _ _)
  · have hiff : ((List.insertionSort newerBook (mvalues s.books)).take 10).isEmpty =
        (mvalues s.books).isEmpty := by
      by_cases hmv : mvalues s.books = []
      · simp [hmv]
      · have h1 : (mvalues s.books).isEmpty = false := by
          simpa [List.isEmpty_iff] using hmv
        have h2 : (List.insertionSort newerBook (mvalues s.books)).take 10 ≠ [] := by
          intro hc
          rcases List.take_eq_nil_iff.mp hc with h10 | hnil
          · simp at h10
          · have hperm := List.perm_insertionSort newerBook (mvalues s.books)
            rw [hnil] at hperm
            exact hmv hperm.symm.eq_nil
        have h3 : ((List.insertionSort newerBook (mvalues s.books)).take 10).isEmpty =
            false := by simpa [List.isEmpty_iff] using h2
        rw [h1, h3]
    unfold getRecentBooks
    dsimp only
    rw [hiff]

/-- Witness for C7: on `c6wState` (two books, the later-listed one created
at time 5) `getRecentBooks` returns both books, newest first. -/
theorem c7_getRecentBooks_sorted_truncated_witness :
    getRecentBooks c6wState =
      .ok [⟨"id-2", "id-0", "Dune", "Herbert", "Science", "D", "I", 5⟩,
           ⟨"id-1", "id-0", "Hobbit", "Tolkien", "Fantasy", "D", "I", 2⟩] := by
  have h := (c7_getRecentBooks_sorted_truncated c6wState).2.2.2.2
  rw [h]
  decide

/-! ### C5: getFeaturedSwappers -/

/-- Whether a user takes part in a swap request, as requester or owner. -/
def participates (r : SwapRequest) (u : String) : Bool :=
  r.requesterId == u || r.ownerId == u

/-- The count the claim describes: one completed swap for both the
`ownerId` and the `requesterId` of each window request — so a request whose
two sides coincide contributes twice to that user. -/
def claimedSwapCount (w : List SwapRequest) (u : String) : Nat :=
  (w.filter (fun r => r.ownerId == u)).length +
    (w.filter (fun r => r.requesterId == u)).length

/-- The count held in the map for a user (0 when absent). -/
def cnt (m : List (String × Nat)) (u : String) : Nat := (mget m u).getD 0

theorem cnt_countStep (m : List (String × Nat)) (r : SwapRequest) (u : String) :
    cnt (countStep m r) u = cnt m u + (if participates r u then 1 else 0) := by
  unfold countStep cnt
  dsimp only
  by_cases ho : u = r.ownerId
  · rw [ho, mget_mput_self]
    have hp : participates r r.ownerId = true := by simp [participates]
    rw [hp]
    simp
  · rw [mget_mput_ne _ _ ho]
    by_cases hr : u = r.requesterId
    · rw [hr, mget_mput_self]
      have hp : participates r r.requesterId = true := by simp [participates]
      rw [hp]
      simp
    · rw [mget_mput_ne _ _ hr]
      have hp : participates r u = false := by
        simp only [participates, Bool.or_eq_false_iff, beq_eq_false_iff_ne]
        exact ⟨fun hc => hr hc.symm, fun hc => ho hc.symm⟩
      rw [hp]
      simp

theorem cnt_foldl_countStep (w : List SwapRequest) :
    ∀ (m : List (String × Nat)) (u : String),
      cnt (w.foldl countStep m) u = cnt m u + w.countP (fun r => participates r u) := by
  induction w with
  | nil => intro m u; simp
  | cons r rest ih =>
    intro m u
    rw [List.foldl_cons, ih, cnt_countStep, List.countP_cons]
    cases h : participates r u <;> simp [h] <;> omega

theorem countStep_nodup {m : List (String × Nat)} (r : SwapRequest)
    (h : (mkeys m).Nodup) : (mkeys (countStep m r)).Nodup :=
  mkeys_nodup_mput _ _ (mkeys_nodup_mput _ _ h)

theorem foldl_countStep_nodup (w : List SwapRequest) :
    ∀ m : List (String × Nat), (mkeys m).Nodup →
      (mkeys (w.foldl countStep m)).Nodup := by
  induction w with
  | nil => exact fun m h => h
  | cons r rest ih => exact fun m h => ih _ (countStep_nodup r h)

/-- Every entry of the counter map counts exactly the window requests its
user participates in (a self-swap counts once). -/
theorem swapCountPerUser_mem (w : List SwapRequest) {u : String} {c : Nat}
    (hm : (u, c) ∈ swapCountPerUser w) :
    c = w.countP (fun r => participates r u) := by
  have hn : (mkeys (swapCountPerUser w)).Nodup := by
    refine foldl_countStep_nodup w [] ?_
    simp [mkeys]
  have hg : mget (swapCountPerUser w) u = some c := mget_of_mem_nodup hn hm
  have hcnt : cnt (w.foldl countStep []) u = c := by
    rw [show (w.foldl countStep [] : List (String × Nat)) = swapCountPerUser w from rfl,
      cnt, hg]
    rfl
  have hc := cnt_foldl_countStep w [] u
  rw [hcnt] at hc
  rw [hc, show cnt ([] : List (String × Nat)) u = 0 from rfl, Nat.zero_add]

instance : IsTotal (String × Nat) moreSwaps :=
  ⟨fun a b => Nat.le_total b.2 a.2⟩

instance : IsTrans (String × Nat) moreSwaps :=
  ⟨fun _ _ _ h1 h2 => Nat.le_trans h2 h1⟩

/-- `filterMap` carries a pairwise relation along the partial map. -/
theorem pairwise_filterMap_of {α β : Type} {R : α → α → Prop} {S : β → β → Prop}
    {f : α → Option β}
    (hf : ∀ a b, R a b → ∀ x, f a = some x → ∀ y, f b = some y → S x y) :
    ∀ {l : List α}, l.Pairwise R → (l.filterMap f).Pairwise S := by
  intro l h
  induction l with
  | nil => simp
  | cons a rest ih =>
    rw [List.pairwise_cons] at h
    rw [List.filterMap_cons]
    cases hfa : f a with
    | none => exact ih h.2
    | some x =>
      refine List.Pairwise.cons ?_ (ih h.2)
      intro y hy
      rcases List.mem_filterMap.mp hy with ⟨b, hb, hfb⟩
      exact hf a b (h.1 b hb) x hfa y hfb

/-- Inversion for `buildEntry`. -/
theorem buildEntry_some {s : State} {e : String × Nat} {x : FeaturedSwapper}
    (h : buildEntry s e = some x) :
    ∃ user, mget s.users e.1 = some user ∧
      x = { username := user.name, booksSwapped := e.2, userId := user.userId
            bookDetails :=
              (List.insertionSort newerBook
                ((mvalues s.books).filter (fun b => b.userId == e.1))).head? } := by
  unfold buildEntry at h
  cases hm : mget s.users e.1 with
  | none => rw [hm] at h; exact absurd h (by simp)
  | some user =>
    rw [hm] at h
    exact ⟨user, rfl, (Option.some_injective _ h).symm⟩

/-- C5 (amended): `getFeaturedSwappers` returns `NotFound` when no swap
request is `Completed` in the current month; on success it returns at most 5
records sorted by `booksSwapped` descending, where each record belongs to a
stored user and its `booksSwapped` counts the window requests that user
participates in as owner or requester — a request whose `ownerId` equals its
`requesterId` counts once for that user, not twice.  The hypothesis `hkey`
(the key of each stored user is its `userId` field) holds in every reachable
state. -/
theorem c5_featured_swappers (monthOf yearOf : Nat → Nat) (now : Nat) (s : State)
    (hkey : ∀ e ∈ s.users, e.2.userId = e.1) :
    (featuredWindow monthOf yearOf now s = [] →
      getFeaturedSwappers monthOf yearOf now s =
        .error (.NotFound "No featured swappers found for this month.")) ∧
    (∀ l, getFeaturedSwappers monthOf yearOf now s = .ok l →
      l.length ≤ 5 ∧
      l.Pairwise (fun a b => b.booksSwapped ≤ a.booksSwapped) ∧
      (∀ e ∈ l, ∃ u, mget s.users e.userId = some u ∧ u.name = e.username ∧
        e.booksSwapped =
          (featuredWindow monthOf yearOf now s).countP
            (fun r => participates r e.userId))) := by
  constructor
  · intro h
    unfold getFeaturedSwappers featuredList
    rw [h]
    rfl
  · intro l hl
    have hl2 : l = featuredList monthOf yearOf now s := by
      unfold getFeaturedSwappers at hl
      dsimp only at hl
      split at hl
      · exact absurd hl (by simp)
      · exact (Except.ok.inj hl).symm
    subst hl2
    refine ⟨?_, ?_, ?_⟩
    · unfold featuredList
      rw [List.length_take]
      exact min_le_left _ _
    · unfold featuredList
      refine List.Pairwise.sublist (List.take_sublist _ _) ?_
      refine pairwise_filterMap_of ?_ (List.sorted_insertionSort _ _)
      intro a b hab x hx y hy
      rcases buildEntry_some hx with ⟨ua, _, hxa⟩
      rcases buildEntry_some hy with ⟨ub, _, hyb⟩
      rw [hxa, hyb]
      exact hab
    · intro e he
      unfold featuredList at he
      have he2 := (List.take_sublist _ _).subset he
      rcases List.mem_filterMap.mp he2 with ⟨entry, hentry, hbe⟩
      rcases buildEntry_some hbe with ⟨user, hgu, hex⟩
      have hentry2 : entry ∈ swapCountPerUser (featuredWindow monthOf yearOf now s) :=
        (List.perm_insertionSort moreSwaps _).subset hentry
      obtain ⟨eu, ec⟩ := entry
      have hcount := swapCountPerUser_mem _ hentry2
      have hukey : user.userId = eu := hkey (eu, user) (mget_some_mem hgu)
      refine ⟨user, ?_, ?_, ?_⟩
      · rw [hex]
        dsimp only
        rw [hukey]
        exact hgu
      · rw [hex]
      · rw [hex]
        dsimp only
        rw [hukey]
        exact hcount

/-- The scenario behind the C5 witness: a completed swap this month between
two distinct users. -/
def c5wOps : List Op :=
  [ .opCreateUserProfile "alice" 0 ⟨"Alice", "a@b.c", "0123456789"⟩,
    .opCreateUserProfile "bob" 1 ⟨"Bob", "b@b.c", "0123456780"⟩,
    .opListBook 2 ⟨"id-0", "T", "A", "G", "D", "I"⟩,
    .opCreateSwapRequest 3 ⟨"id-0", "id-1", "id-2"⟩,
    .opAcceptSwapRequest "id-3" ]

def c5wState : State := execSeq c5wOps

/-- The list `getFeaturedSwappers` returns on `c5wState`. -/
def c5wList : List FeaturedSwapper :=
  [ ⟨"Bob", 1, "id-1", none⟩,
    ⟨"Alice", 1, "id-0", some ⟨"id-2", "id-0", "T", "A", "G", "D", "I", 2⟩⟩ ]

/-- Witness for C5: the empty state gives `NotFound`; on `c5wState` the
returned records carry each user's participation count. -/
theorem c5_featured_swappers_witness :
    getFeaturedSwappers (fun _ => 0) (fun _ => 0) 7 initState =
      .error (.NotFound "No featured swappers found for this month.") ∧
    (c5wList.length ≤ 5 ∧
     c5wList.Pairwise (fun a b => b.booksSwapped ≤ a.booksSwapped) ∧
     (∀ e ∈ c5wList, ∃ u, mget c5wState.users e.userId = some u ∧
        u.name = e.username ∧
        e.booksSwapped =
          (featuredWindow (fun _ => 0) (fun _ => 0) 7 c5wState).countP
            (fun r => participates r e.userId))) :=
  ⟨(c5_featured_swappers (fun _ => 0) (fun _ => 0) 7 initState (by decide)).1 rfl,
   (c5_featured_swappers (fun _ => 0) (fun _ => 0) 7 c5wState (by decide)).2
     c5wList (by decide)⟩

/-- The scenario behind the C5 counterexample: a completed swap request
whose `ownerId` equals its `requesterId` (nothing in `createSwapRequest`
forbids that). -/
def c5ceOps : List Op :=
  [ .opCreateUserProfile "alice" 0 ⟨"Alice", "a@b.c", "0123456789"⟩,
    .opListBook 2 ⟨"id-0", "T", "A", "G", "D", "I"⟩,
    .opCreateSwapRequest 3 ⟨"id-0", "id-0", "id-1"⟩,
    .opAcceptSwapRequest "id-2" ]

/-- Counterexample to C5 as stated: with one completed self-swap in the
window, the claim's counting rule (one for the `ownerId` **and** one for the
`requesterId` of each window request) gives the user 2, but the code stores
`booksSwapped = 1`: the second `Map.set` overwrites the first because both
reads happen before either write. -/
theorem c5_counterexample :
    getFeaturedSwappers (fun _ => 0) (fun _ => 0) 7 (execSeq c5ceOps) =
      .ok [⟨"Alice", 1, "id-0", some ⟨"id-1", "id-0", "T", "A", "G", "D", "I", 2⟩⟩] ∧
    claimedSwapCount
      (featuredWindow (fun _ => 0) (fun _ => 0) 7 (execSeq c5ceOps)) "id-0" = 2 := by
  decide

end BookSwap
